import Mathlib

/-!
Verification of the retrieval-augmented generation core of the Bangladesh
Legal Assistant repository (`rag_system.py`), shallowly embedded in Lean.

Modelling conventions:
* Vector components and similarity scores (Python floats) are modelled as
  integers.  The float values themselves come only from the opaque
  external embedding model, and every claim settled here concerns lengths,
  ordering under `≤`, membership, or metadata filtering — all invariant
  under the numeric type carrying the scores — so integer-valued
  components lose no generality while keeping every definition evaluable
  by the kernel on concrete inputs.
* Python dict-shaped metadata is a record of optional fields; `dict.get`
  with a default becomes `Option.getD`.
* The external embedding model (`SentenceTransformer.encode`) is an opaque
  capability `Env.embed : String → Option Vec`; `none` models the call
  raising for that text.  `faiss.normalize_L2` involves a square root, so
  it is kept opaque as `Env.normalizeL2 : Vec → Vec`; no claim depends on
  the numeric values it produces.
* The external generation model (Gemini `generate_content`) is
  `Env.generate : String → Except String String`; `Except.error e` models
  the call raising with message `e`, and `Except.ok ""` models a response
  whose `.text` is falsy.
* FAISS `IndexFlatIP` over `n` stored vectors is modelled exactly: its
  `search(q, k)` returns the `k` best (score, index) pairs by descending
  inner product, padded with sentinel index `-1` entries when `k > n`.
* Python exceptions escaping a method are `Except PyError` (for methods
  without state mutation) or an `Option PyError` component paired with the
  mutated state (for `build_vector_store`, which assigns fields before the
  point where it can raise).
-/

/-- An embedding vector (Python: a numpy float row). -/
abbrev Vec : Type := List Int

/-- Metadata record for one chunk.  Python keeps this as a loose dict, read
only through `metadata.get(key, default)`; each field is therefore optional. -/
structure Metadata where
  act_title : Option String
  act_year : Option String
  is_repealed : Option Bool
  language_detected : Option String
  section_title : Option String
  chunk_id : Option String
  chunk_type : Option String
deriving DecidableEq

instance : Inhabited Metadata := ⟨⟨none, none, none, none, none, none, none⟩⟩

/-- One processed document as consumed by `build_vector_store`
(the content and metadata entries of each processed-document dict). -/
structure Document where
  content : String
  metadata : Metadata
deriving DecidableEq

/-- `SearchResult` dataclass from `rag_system.py`. -/
structure SearchResult where
  content : String
  metadata : Metadata
  score : Int
  chunk_id : String
  chunk_type : String
deriving DecidableEq

/-- One conversation-history entry (`{role, content}` dict). -/
structure ConvTurn where
  role : String
  content : String
deriving DecidableEq

/-- A value stored in the `filters` dict.  The tag records the Python
runtime type, which `_apply_filters` inspects with `isinstance`. -/
inductive FilterValue where
  | tuple : Int → Int → FilterValue
  | list : List Int → FilterValue
  | bool : Bool → FilterValue
  | str : String → FilterValue
  | strList : List String → FilterValue
deriving DecidableEq

/-- The `filters` dict, as an association list of key/value entries. -/
abbrev Filters : Type := List (String × FilterValue)

/-- Python exceptions that can escape the embedded methods. -/
inductive PyError where
  | valueError : String → PyError
  | indexError : String → PyError
  | embedError : String → PyError
  | typeError : String → PyError
deriving DecidableEq

/-- The opaque external capabilities held by a `LegalRAGSystem` instance:
the sentence-embedding model, FAISS float normalization, and the Gemini
generation client. -/
structure Env where
  embed : String → Option Vec
  normalizeL2 : Vec → Vec
  generate : String → Except String String

/-- The mutable state of a `LegalRAGSystem` instance: `self.index`,
`self.documents`, `self.document_metadata`. -/
structure RAGState where
  index : Option (List Vec)
  documents : List String
  document_metadata : List Metadata

/-- The persisted artifact directory: `index.faiss`, `documents.pkl`,
`metadata.pkl`.  A `none` file is absent on disk. -/
structure Disk where
  indexFile : Option (List Vec)
  documentsFile : Option (List String)
  metadataFile : Option (List Metadata)

/-! ### String helpers (Python built-ins used by `_apply_filters`) -/

/-- Python `str.isdigit` restricted to ASCII digits (every `act_year`
value in the corpus is ASCII). -/
def isDigitString (s : String) : Bool :=
  s.toList.all Char.isDigit

/-- Python `int(s)` on a digit string. -/
def strToNat (s : String) : Nat :=
  s.toList.foldl (fun n c => n * 10 + (c.toNat - 48)) 0

/-- Whether `needle` occurs at the start of `hay` (on character lists). -/
def charsStartWith : List Char → List Char → Bool
  | [], _ => true
  | _ :: _, [] => false
  | a :: as, b :: bs => a == b && charsStartWith as bs

/-- Whether `needle` occurs anywhere inside `hay` (on character lists). -/
def charsContain (needle : List Char) : List Char → Bool
  | [] => needle.isEmpty
  | c :: rest => charsStartWith needle (c :: rest) || charsContain needle rest

/-- Python `needle in hay` on strings. -/
def pyInStr (needle hay : String) : Bool :=
  charsContain needle.toList hay.toList

/-! ### `_apply_filters` -/

/-- One pass of the `for key, value in filters.items()` body of
`_apply_filters`: `true` means the loop continues (the entry does not
reject the record), `false` means the method returns `False`.  The
`isinstance` checks become matches on the `FilterValue` tag; an entry whose
value has the wrong runtime type falls through every branch and is
ignored. -/
def filterEntryOk (metadata : Metadata) (key : String) (value : FilterValue) : Bool :=
  if key = "year_range" then
    match value with
    | FilterValue.tuple lo hi =>
      let year_str := metadata.act_year.getD ""
      if year_str ≠ "" ∧ isDigitString year_str then
        decide (lo ≤ (strToNat year_str : Int)) && decide ((strToNat year_str : Int) ≤ hi)
      else true
    | _ => true
  else if key = "is_repealed" then
    match value with
    | FilterValue.bool b => metadata.is_repealed.getD false == b
    | _ => true
  else if key = "language" then
    match value with
    | FilterValue.str s => metadata.language_detected.getD "" == s
    | _ => true
  else if key = "keywords" then
    match value with
    | FilterValue.strList kws =>
      let content_lower := (metadata.act_title.getD "").toLower
      kws.any (fun kw => pyInStr kw.toLower content_lower)
    | _ => true
  else true

/-- `LegalRAGSystem._apply_filters`: the conjunction of every entry check
(the Python loop returns `False` at the first failing entry, `True` once
all entries pass). -/
def apply_filters (metadata : Metadata) (filters : Filters) : Bool :=
  filters.all (fun p => filterEntryOk metadata p.1 p.2)

/-- The Python year parse performed by the `year_range` branch:
`some y` when the act_year string read with a default of "" is truthy and `isdigit`. -/
def pyParseYear (metadata : Metadata) : Option Int :=
  let year_str := metadata.act_year.getD ""
  if year_str ≠ "" ∧ isDigitString year_str then some (strToNat year_str : Int) else none

/-- Truthiness of the `filters` argument (`if filters:`): a non-`None`,
non-empty dict. -/
def filtersActive : Option Filters → Bool
  | none => false
  | some fs => !fs.isEmpty

/-- The survival condition for the metadata of one candidate inside the search
loop: `if filters:` then `_apply_filters` must hold, otherwise the record
is kept unconditionally. -/
def keepByFilters (metadata : Metadata) (filters : Option Filters) : Bool :=
  if filtersActive filters then apply_filters metadata (filters.getD []) else true

/-! ### FAISS `IndexFlatIP` model -/

/-- Inner product of two float rows (FAISS `IndexFlatIP` similarity). -/
def innerProduct (a b : Vec) : Int :=
  (List.zipWith (fun x y => x * y) a b).sum

/-- Descending-score order on (score, index) pairs. -/
def scoreRel (a b : Int × Int) : Prop := b.1 ≤ a.1

instance : DecidableRel scoreRel := fun a b =>
  inferInstanceAs (Decidable (b.1 ≤ a.1))

instance : IsTotal (Int × Int) scoreRel := ⟨fun a b => le_total b.1 a.1⟩

instance : IsTrans (Int × Int) scoreRel := ⟨fun _ _ _ h1 h2 => le_trans h2 h1⟩

/-- `index.search(q, k)` on an `IndexFlatIP` holding `vecs`: the `k` best
(score, index) pairs by descending inner product with `q`, padded with
sentinel `(-1, -1)` entries when `k` exceeds the number of stored vectors
(FAISS reports missing neighbors with index `-1`; the sentinel score is
irrelevant because the caller skips those slots). -/
def faissTopK (vecs : List Vec) (q : Vec) (k : Nat) : List (Int × Int) :=
  let scored := vecs.enum.map (fun p => (innerProduct q p.2, (p.1 : Int)))
  let top := (scored.insertionSort scoreRel).take k
  top ++ List.replicate (k - top.length) (-1, -1)

/-! ### `LegalRAGSystem.search` -/

/-- The metadata looked up for a candidate index
(`self.document_metadata[idx]`). -/
def candMetadata (st : RAGState) (idx : Int) : Metadata :=
  st.document_metadata.getD idx.toNat default

/-- The `SearchResult(...)` constructed for a surviving candidate. -/
def mkSearchResult (st : RAGState) (score : Int) (idx : Int) : SearchResult :=
  let metadata := candMetadata st idx
  { content := st.documents.getD idx.toNat ""
    metadata := metadata
    score := score
    chunk_id := metadata.chunk_id.getD ("chunk_" ++ toString idx)
    chunk_type := metadata.chunk_type.getD "unknown" }

/-- The `for score, idx in zip(scores[0], indices[0])` loop of `search`:
skip sentinel slots, skip records rejected by the filters, append the
rest, and break once `top_k` results are collected. -/
def searchLoop (st : RAGState) (filters : Option Filters) (top_k : Nat) :
    List (Int × Int) → List SearchResult → List SearchResult
  | [], results => results
  | (score, idx) :: rest, results =>
    if idx = -1 then
      searchLoop st filters top_k rest results
    else if keepByFilters (candMetadata st idx) filters = false then
      searchLoop st filters top_k rest results
    else
      let results2 := results ++ [mkSearchResult st score idx]
      if top_k ≤ results2.length then results2
      else searchLoop st filters top_k rest results2

/-- `LegalRAGSystem.search`: raises `ValueError` when no index is held;
embeds and normalizes the query; over-fetches `top_k * 2` candidates from
FAISS; runs the filter/collect loop. -/
def search (env : Env) (st : RAGState) (query : String) (top_k : Nat)
    (filters : Option Filters) : Except PyError (List SearchResult) :=
  match st.index with
  | none => Except.error (PyError.valueError "Vector store not built or loaded")
  | some vecs =>
    match env.embed query with
    | none => Except.error (PyError.embedError query)
    | some qe =>
      Except.ok (searchLoop st filters top_k (faissTopK vecs (env.normalizeL2 qe) (top_k * 2)) [])

/-- Whether a candidate slot survives the skip conditions of the loop. -/
def goodCand (st : RAGState) (filters : Option Filters) (c : Int × Int) : Bool :=
  decide (c.2 ≠ -1) && keepByFilters (candMetadata st c.2) filters

/-- The results the loop would collect with no `top_k` bound: every
surviving candidate, in candidate order. -/
def keptResults (st : RAGState) (filters : Option Filters) (cands : List (Int × Int)) :
    List SearchResult :=
  (cands.filter (goodCand st filters)).map (fun c => mkSearchResult st c.1 c.2)

/-! ### `_build_context` and `_get_prompt_template` -/

/-- One block of `_build_context` (the f-string for document `i`, then
`.strip()`). -/
def build_context_part (i : Nat) (doc : SearchResult) : String :=
  let metadata := doc.metadata
  ("\nDocument " ++ toString i ++ ":\nTitle: " ++ metadata.act_title.getD "N/A"
    ++ "\nYear: " ++ metadata.act_year.getD "N/A"
    ++ "\nSection: " ++ metadata.section_title.getD "Overview"
    ++ "\nStatus: " ++ (if metadata.is_repealed.getD false then "Repealed" else "Active")
    ++ "\nContent: " ++ doc.content.take 500 ++ "...\n            ").trim

/-- `LegalRAGSystem._build_context`. -/
def build_context (documents : List SearchResult) : String :=
  if documents.isEmpty then "No relevant legal documents found."
  else
    String.intercalate "\n\n"
      (documents.enum.map (fun p => build_context_part (p.1 + 1) p.2))

/-- The shared preamble (`base_context` f-string). -/
def base_context_of (context query : String) : String :=
  "\nYou are a Bangladesh Legal Assistant AI, specialized in helping with legal questions based on the Bangladesh legal database.\n\nAvailable Legal Context:\n"
    ++ context ++ "\n\nCurrent Query: " ++ query ++ "\n        "

/-- The `lawyer` branch suffix. -/
def lawyerSuffix : String :=
  "\n\nLAWYER MODE: You are acting as a legal professional providing expert legal advice.\n\nInstructions:\n1. Provide comprehensive legal analysis\n2. Cite specific acts, sections, and years\n3. Explain legal implications and consequences\n4. Suggest legal strategies or approaches\n5. Mention relevant precedents if applicable\n6. Use formal legal language\n7. Always caveat that this is general guidance and recommend consulting a practicing lawyer for specific cases\n\nResponse format: Provide detailed legal analysis with citations.\n"

/-- The `argument` branch suffix. -/
def argumentSuffix : String :=
  "\n\nARGUMENT MODE: Help build legal arguments and counterarguments.\n\nInstructions:\n1. Identify the main legal issues\n2. Present arguments for different sides\n3. Cite supporting legal provisions\n4. Identify potential weaknesses in arguments\n5. Suggest evidence or precedents that might be relevant\n6. Present both plaintiff and defendant perspectives where applicable\n\nResponse format: Structure as \"Arguments For:\" and \"Arguments Against:\" with legal citations.\n"

/-- The `research` branch suffix. -/
def researchSuffix : String :=
  "\n\nRESEARCH MODE: Provide comprehensive legal research assistance.\n\nInstructions:\n1. Identify all relevant laws and regulations\n2. Provide historical context and amendments\n3. Compare with similar provisions in other acts\n4. Explain the legislative intent and purpose\n5. List related acts and cross-references\n6. Provide implementation guidelines if available\n\nResponse format: Comprehensive research summary with extensive citations.\n"

/-- The `simple` branch suffix. -/
def simpleSuffix : String :=
  "\n\nSIMPLE MODE: Explain legal concepts in easy-to-understand language.\n\nInstructions:\n1. Use simple, non-technical language\n2. Explain legal jargon and concepts\n3. Provide practical examples\n4. Focus on what it means for ordinary citizens\n5. Break down complex procedures into steps\n6. Avoid excessive legal citations\n\nResponse format: Clear, simple explanation that a non-lawyer can understand.\n"

/-- The `else` (general-mode) branch suffix. -/
def generalSuffix : String :=
  "\n\nGENERAL MODE: Provide balanced legal information and guidance.\n\nInstructions:\n1. Answer the question directly and clearly\n2. Provide relevant legal context\n3. Cite applicable laws with act names and years\n4. Explain practical implications\n5. Maintain professional but accessible tone\n6. Suggest next steps if appropriate\n\nResponse format: Clear, informative response with appropriate legal citations.\n"

/-- `LegalRAGSystem._get_prompt_template`.  The `history` parameter is
accepted but never read, exactly as in the source. -/
def get_prompt_template (mode query context : String)
    (history : Option (List ConvTurn)) : String :=
  let base_context := base_context_of context query
  if mode = "lawyer" then base_context ++ lawyerSuffix
  else if mode = "argument" then base_context ++ argumentSuffix
  else if mode = "research" then base_context ++ researchSuffix
  else if mode = "simple" then base_context ++ simpleSuffix
  else base_context ++ generalSuffix

/-! ### `generate_response` and `get_chat_response` -/

/-- `LegalRAGSystem.generate_response`: build the prompt, call the
generation model inside `try`, and convert any raise (or falsy response
text) into a fallback string. -/
def generate_response (env : Env) (query : String)
    (context_documents : List SearchResult) (mode : String)
    (conversation_history : Option (List ConvTurn)) : String :=
  let context := build_context context_documents
  let prompt := get_prompt_template mode query context conversation_history
  match env.generate prompt with
  | Except.ok t =>
    if t ≠ "" then t
    else "I apologize, but I couldn\x27t generate a response. Please try rephrasing your question."
  | Except.error e => "I encountered an error while processing your request: " ++ e

/-- `LegalRAGSystem.get_chat_response`: search (whose `ValueError` or an
embedding raise propagates), then generate, then return the pair. -/
def get_chat_response (env : Env) (st : RAGState) (query mode : String)
    (filters : Option Filters) (conversation_history : Option (List ConvTurn))
    (top_k : Nat) : Except PyError (String × List SearchResult) :=
  match search env st query top_k filters with
  | Except.error e => Except.error e
  | Except.ok search_results =>
    Except.ok (generate_response env query search_results mode conversation_history,
      search_results)

/-! ### `build_vector_store`, `save_vector_store`, `load_vector_store` -/

/-- `self.embedding_model.encode(texts)`: one vector per text, in order;
the whole call raises (`none`) as soon as any single text fails to embed. -/
def batchEmbed (env : Env) : List String → Option (List Vec)
  | [] => some []
  | t :: ts =>
    match env.embed t, batchEmbed env ts with
    | some v, some vs => some (v :: vs)
    | _, _ => none

/-- `LegalRAGSystem.save_vector_store`: write the three files together.
`faiss.write_index` raises when `self.index` is `None`. -/
def save_vector_store (st : RAGState) : Except PyError Disk :=
  match st.index with
  | none => Except.error (PyError.typeError "write_index called on None index")
  | some vecs => Except.ok ⟨some vecs, some st.documents, some st.document_metadata⟩

/-- `LegalRAGSystem.load_vector_store`: return `False` when `index.faiss`
is absent; read the three files in order, assigning each field as it is
read; any raise is caught and also yields `False`, keeping whatever had
already been assigned. -/
def load_vector_store (d : Disk) (st : RAGState) : RAGState × Bool :=
  match d.indexFile with
  | none => (st, false)
  | some vecs =>
    let st1 : RAGState := { st with index := some vecs }
    match d.documentsFile with
    | none => (st1, false)
    | some docs =>
      let st2 : RAGState := { st1 with documents := docs }
      match d.metadataFile with
      | none => (st2, false)
      | some mds => ({ st2 with document_metadata := mds }, true)

/-- `LegalRAGSystem.build_vector_store`: assign `self.documents` and
`self.document_metadata` from the input, embed every content (the encode
call raising aborts the method with those fields already replaced), read
the embedding-matrix dimension (an `IndexError` on an empty corpus),
normalize and add all vectors to a fresh `IndexFlatIP`, and save.  Returns
the final state, the final disk, and the escaped exception if any. -/
def build_vector_store (env : Env) (st : RAGState) (d : Disk)
    (documents : List Document) : RAGState × Disk × Option PyError :=
  let texts := documents.map Document.content
  let st1 : RAGState :=
    { st with documents := texts, document_metadata := documents.map Document.metadata }
  match batchEmbed env texts with
  | none => (st1, d, some (PyError.embedError "embedding model raised"))
  | some embeddings =>
    match embeddings.head? with
    | none => (st1, d, some (PyError.indexError "tuple index out of range"))
    | some _ =>
      let st2 : RAGState := { st1 with index := some (embeddings.map env.normalizeL2) }
      match save_vector_store st2 with
      | Except.ok d2 => (st2, d2, none)
      | Except.error e => (st2, d, some e)

/-- The positional invariant of §3 of the design: the vector index, the
content sequence and the metadata sequence have identical length. -/
def stateConsistent (st : RAGState) : Prop :=
  ∀ vecs, st.index = some vecs →
    vecs.length = st.documents.length ∧
      st.documents.length = st.document_metadata.length

/-! ### Concrete test fixtures -/

/-- Metadata with every key absent. -/
def mdEmpty : Metadata := ⟨none, none, none, none, none, none, none⟩

/-- A record whose `act_year` is not parseable as an integer. -/
def mdBadYear : Metadata := ⟨some "Some Act", some "unknown", none, none, none, none, none⟩

/-- A record from 1800 (outside the 1900–2000 range used below). -/
def mdOldAct : Metadata := ⟨some "Old Act", some "1800", none, none, none, none, none⟩

/-- A record from 1872 (inside the 1860–1900 range used below). -/
def mdContract : Metadata := ⟨some "Contract Act", some "1872", none, none, none, none, none⟩

/-- Capabilities whose generation model always raises. -/
def envFailGen : Env :=
  ⟨fun _ => some [1], fun v => v, fun _ => Except.error "boom"⟩

/-- Capabilities whose embedding model raises exactly on the text "bad". -/
def envBadEmbed : Env :=
  ⟨fun s => if s = "bad" then none else some [1], fun v => v, fun _ => Except.ok "ans"⟩

/-- A fresh instance (nothing built, nothing loaded). -/
def stEmptyState : RAGState := ⟨none, [], []⟩

/-- An empty artifact directory. -/
def diskEmpty : Disk := ⟨none, none, none⟩

/-- A one-document built state. -/
def stOne : RAGState := ⟨some [[1]], ["doc1"], [mdEmpty]⟩

/-- A two-document built state with distinct similarity scores. -/
def stTwo : RAGState := ⟨some [[1], [2]], ["d0", "d1"], [mdEmpty, mdEmpty]⟩

/-- A built state holding only the 1800 record. -/
def stOldAct : RAGState := ⟨some [[1]], ["old act text"], [mdOldAct]⟩

/-- A built state holding only the 1872 record. -/
def stContract : RAGState := ⟨some [[1]], ["contract text"], [mdContract]⟩

/-- The result `search` constructs for `stOne`. -/
def resDoc1 : SearchResult := ⟨"doc1", mdEmpty, 1, "chunk_0", "unknown"⟩

/-- The results `search` constructs for `stTwo`. -/
def resD0 : SearchResult := ⟨"d0", mdEmpty, 1, "chunk_0", "unknown"⟩

/-- The higher-scoring of the two `stTwo` results. -/
def resD1 : SearchResult := ⟨"d1", mdEmpty, 2, "chunk_1", "unknown"⟩

/-- The result `search` constructs for `stOldAct`. -/
def resOldAct : SearchResult := ⟨"old act text", mdOldAct, 1, "chunk_0", "unknown"⟩

/-- The result `search` constructs for `stContract`. -/
def resContract : SearchResult := ⟨"contract text", mdContract, 1, "chunk_0", "unknown"⟩

/-- A chunk whose content embeds. -/
def docGood : Document := ⟨"good", mdEmpty⟩

/-- A chunk whose content fails to embed under `envBadEmbed`. -/
def docBad : Document := ⟨"bad", mdEmpty⟩

/-! ### Structure lemmas about the search loop -/

theorem searchLoop_eq (st : RAGState) (f : Option Filters) (k : Nat)
    (cands : List (Int × Int)) :
    ∀ acc : List SearchResult, acc.length < k →
      searchLoop st f k cands acc = acc ++ (keptResults st f cands).take (k - acc.length) := by
  induction cands with
  | nil =>
    intro acc h
    simp [searchLoop, keptResults]
  | cons c rest ih =>
    intro acc h
    obtain ⟨score, idx⟩ := c
    by_cases hidx : idx = -1
    · have hg : goodCand st f (score, idx) = false := by
        simp [goodCand, hidx]
      rw [show searchLoop st f k ((score, idx) :: rest) acc
            = searchLoop st f k rest acc by simp [searchLoop, hidx]]
      rw [ih acc h]
      simp [keptResults, List.filter_cons, hg]
    · by_cases hkeep : keepByFilters (candMetadata st idx) f = false
      · have hg : goodCand st f (score, idx) = false := by
          simp [goodCand, hkeep]
        rw [show searchLoop st f k ((score, idx) :: rest) acc
              = searchLoop st f k rest acc by simp [searchLoop, hidx, hkeep]]
        rw [ih acc h]
        simp [keptResults, List.filter_cons, hg]
      · have hkeep2 : keepByFilters (candMetadata st idx) f = true := by
          cases hb : keepByFilters (candMetadata st idx) f
          · exact absurd hb hkeep
          · rfl
        have hg : goodCand st f (score, idx) = true := by
          simp [goodCand, hidx, hkeep2]
        have hkept : keptResults st f ((score, idx) :: rest)
            = mkSearchResult st score idx :: keptResults st f rest := by
          simp [keptResults, List.filter_cons, hg]
        by_cases hfull : k ≤ (acc ++ [mkSearchResult st score idx]).length
        · have hlen : k = acc.length + 1 := by
            simp at hfull
            omega
          rw [show searchLoop st f k ((score, idx) :: rest) acc
                = acc ++ [mkSearchResult st score idx] by
              simp only [searchLoop]
              rw [if_neg hidx, if_neg hkeep, if_pos hfull]]
          rw [hkept]
          have : k - acc.length = 1 := by omega
          simp [this]
        · have hlt : (acc ++ [mkSearchResult st score idx]).length < k := by
            omega
          rw [show searchLoop st f k ((score, idx) :: rest) acc
                = searchLoop st f k rest (acc ++ [mkSearchResult st score idx]) by
              simp only [searchLoop]
              rw [if_neg hidx, if_neg hkeep, if_neg (by omega : ¬ k ≤ (acc ++ [mkSearchResult st score idx]).length)]]
          rw [ih _ hlt, hkept]
          have hsub : k - acc.length = (k - (acc ++ [mkSearchResult st score idx]).length) + 1 := by
            simp
            omega
          rw [hsub, List.take_succ_cons]
          simp

theorem search_eq (env : Env) (st : RAGState) (q : String) (k : Nat)
    (f : Option Filters) (vecs : List Vec) (qe : Vec)
    (hidx : st.index = some vecs) (hemb : env.embed q = some qe) :
    search env st q k f =
      Except.ok ((keptResults st f (faissTopK vecs (env.normalizeL2 qe) (k * 2))).take k) := by
  have h1 : search env st q k f =
      Except.ok (searchLoop st f k (faissTopK vecs (env.normalizeL2 qe) (k * 2)) []) := by
    unfold search
    rw [hidx, hemb]
  rw [h1]
  rcases Nat.eq_zero_or_pos k with hk | hk
  · subst hk
    simp [faissTopK, searchLoop, keptResults]
  · rw [searchLoop_eq st f k _ [] (by simpa using hk)]
    simp

/-- The sentinel pad entries never survive the skip conditions, so the
surviving candidates of a FAISS answer all come from its sorted prefix. -/
theorem keptResults_faissTopK (st : RAGState) (f : Option Filters)
    (vecs : List Vec) (q : Vec) (k : Nat) :
    keptResults st f (faissTopK vecs q k) =
      keptResults st f
        ((((vecs.enum.map (fun p => (innerProduct q p.2, (p.1 : Int)))).insertionSort
          scoreRel)).take k) := by
  unfold faissTopK keptResults
  rw [List.filter_append]
  have hpad : (List.replicate
      (k - (((vecs.enum.map (fun p => (innerProduct q p.2, (p.1 : Int)))).insertionSort
        scoreRel).take k).length) ((-1 : Int), (-1 : Int))).filter (goodCand st f) = [] := by
    rw [List.filter_eq_nil_iff]
    intro a ha
    rw [List.mem_replicate] at ha
    rw [ha.2]
    simp [goodCand]
  rw [hpad]
  simp

theorem keptResults_pairwise (st : RAGState) (f : Option Filters)
    (vecs : List Vec) (q : Vec) (k : Nat) :
    (keptResults st f (faissTopK vecs q k)).Pairwise
      (fun r1 r2 => r2.score ≤ r1.score) := by
  rw [keptResults_faissTopK]
  unfold keptResults
  rw [List.pairwise_map]
  have hsorted : ((vecs.enum.map (fun p => (innerProduct q p.2, (p.1 : Int)))).insertionSort
      scoreRel).Sorted scoreRel :=
    List.sorted_insertionSort scoreRel _
  have htake := hsorted.sublist (List.take_sublist k _)
  have hfilter := htake.sublist
    (@List.filter_sublist (Int × Int) (goodCand st f)
      (((vecs.enum.map (fun p => (innerProduct q p.2, (p.1 : Int)))).insertionSort
        scoreRel).take k))
  exact hfilter.imp (fun h => h)

theorem mem_keptResults (st : RAGState) (f : Option Filters)
    (cands : List (Int × Int)) (r : SearchResult)
    (h : r ∈ keptResults st f cands) :
    ∃ c, c ∈ cands ∧ goodCand st f c = true ∧ r = mkSearchResult st c.1 c.2 := by
  unfold keptResults at h
  rw [List.mem_map] at h
  obtain ⟨c, hc, hr⟩ := h
  rw [List.mem_filter] at hc
  exact ⟨c, hc.1, hc.2, hr.symm⟩

/-- Inversion for a successful `search` call: it implies the index was
held and the query embedded, and characterizes the returned list. -/
theorem search_ok_inv (env : Env) (st : RAGState) (q : String) (k : Nat)
    (f : Option Filters) (rs : List SearchResult)
    (h : search env st q k f = Except.ok rs) :
    ∃ vecs qe, st.index = some vecs ∧ env.embed q = some qe ∧
      rs = (keptResults st f (faissTopK vecs (env.normalizeL2 qe) (k * 2))).take k := by
  cases hidx : st.index with
  | none => rw [search, hidx] at h; cases h
  | some vecs =>
    cases hemb : env.embed q with
    | none => rw [search, hidx, hemb] at h; cases h
    | some qe =>
      rw [search_eq env st q k f vecs qe hidx hemb] at h
      injection h with h2
      exact ⟨vecs, qe, rfl, rfl, h2.symm⟩

theorem batchEmbed_eq_none (env : Env) (ts : List String) (t : String)
    (hmem : t ∈ ts) (hf : env.embed t = none) : batchEmbed env ts = none := by
  induction ts with
  | nil => cases hmem
  | cons a as ih =>
    rcases List.mem_cons.mp hmem with h | h
    · subst h
      simp [batchEmbed, hf]
    · cases he : env.embed a <;> simp [batchEmbed, he, ih h]

theorem batchEmbed_length (env : Env) (ts : List String) (es : List Vec)
    (h : batchEmbed env ts = some es) : es.length = ts.length := by
  induction ts generalizing es with
  | nil =>
    unfold batchEmbed at h
    injection h with h
    rw [← h]
    rfl
  | cons a as ih =>
    unfold batchEmbed at h
    cases he : env.embed a with
    | none => rw [he] at h; cases h
    | some v =>
      rw [he] at h
      cases hb : batchEmbed env as with
      | none => rw [hb] at h; cases h
      | some vs =>
        rw [hb] at h
        injection h with h
        rw [← h]
        simp [ih vs hb]

/-! ### Claims -/

/-- Claim C10 (confirmed): for every mode, query and context, the rendered
prompt is identical for any two conversation-history arguments —
`_get_prompt_template` never reads its `history` parameter. -/
theorem C10_prompt_ignores_history (mode query context : String)
    (h1 h2 : Option (List ConvTurn)) :
    get_prompt_template mode query context h1 =
      get_prompt_template mode query context h2 := rfl

/-- Claim C5 (confirmed): rendering the prompt with a mode string outside
the closed set of five mode names produces output textually identical to
rendering with mode "general" — unknown modes fail-soft to the general
template. -/
theorem C5_unknown_mode_renders_general (mode query context : String)
    (history : Option (List ConvTurn))
    (h : mode ∉ (["general", "lawyer", "argument", "research", "simple"] : List String)) :
    get_prompt_template mode query context history =
      get_prompt_template "general" query context history := by
  have h1 : ¬ mode = "lawyer" := fun hm => h (by rw [hm]; simp)
  have h2 : ¬ mode = "argument" := fun hm => h (by rw [hm]; simp)
  have h3 : ¬ mode = "research" := fun hm => h (by rw [hm]; simp)
  have h4 : ¬ mode = "simple" := fun hm => h (by rw [hm]; simp)
  unfold get_prompt_template
  rw [if_neg h1, if_neg h2, if_neg h3, if_neg h4,
    if_neg (by decide : ¬ ("general" : String) = "lawyer"),
    if_neg (by decide : ¬ ("general" : String) = "argument"),
    if_neg (by decide : ¬ ("general" : String) = "research"),
    if_neg (by decide : ¬ ("general" : String) = "simple")]

/-- Witness for C5 at the concrete unknown mode "typo". -/
theorem C5_witness :
    get_prompt_template "typo" "q" "ctx" none =
      get_prompt_template "general" "q" "ctx" none :=
  C5_unknown_mode_renders_general "typo" "q" "ctx" none (by decide)

/-- Claim C2 (corrected), counterexample: a record whose `act_year` is the
unparseable string "unknown" PASSES a `year_range=(1900,2000)` filter —
`_apply_filters` returns `True`, where the claim says the record fails the
predicate (fail-closed). -/
theorem C2_counterexample :
    pyParseYear mdBadYear = none ∧
    apply_filters mdBadYear [("year_range", FilterValue.tuple 1900 2000)] = true :=
  ⟨rfl, rfl⟩

/-- Claim C2 (corrected), amended: for every metadata record whose
`act_year` is not parseable as an integer, a filter supplying
`year_range=(lo,hi)` leaves the record PASSING the year-range predicate —
the check is silently skipped (fail-open), not fail-closed. -/
theorem C2_year_filter_fail_open (md : Metadata) (lo hi : Int)
    (h : pyParseYear md = none) :
    apply_filters md [("year_range", FilterValue.tuple lo hi)] = true := by
  have hc : ¬ (md.act_year.getD "" ≠ "" ∧ isDigitString (md.act_year.getD "")) := by
    intro hcond
    unfold pyParseYear at h
    rw [if_pos hcond] at h
    exact Option.noConfusion h
  simp [apply_filters, filterEntryOk, hc]

/-- Witness for the amended C2 at the concrete record `mdBadYear`. -/
theorem C2_witness :
    apply_filters mdBadYear [("year_range", FilterValue.tuple 1900 2000)] = true :=
  C2_year_filter_fail_open mdBadYear 1900 2000 rfl

/-- Claim C7 (confirmed): persisting a built index and restoring it into a
fresh instance yields a state whose content and metadata sequences equal
the persisted ones position by position, and the restore returns `True`. -/
theorem C7_round_trip (st st0 : RAGState) (vecs : List Vec)
    (hidx : st.index = some vecs) :
    save_vector_store st =
      Except.ok ⟨some vecs, some st.documents, some st.document_metadata⟩ ∧
    (load_vector_store ⟨some vecs, some st.documents, some st.document_metadata⟩ st0).2
      = true ∧
    (load_vector_store ⟨some vecs, some st.documents, some st.document_metadata⟩
        st0).1.documents = st.documents ∧
    (load_vector_store ⟨some vecs, some st.documents, some st.document_metadata⟩
        st0).1.document_metadata = st.document_metadata := by
  unfold save_vector_store load_vector_store
  rw [hidx]
  exact ⟨rfl, rfl, rfl, rfl⟩

/-- Witness for C7: the two-document built state round-trips into a fresh
instance. -/
theorem C7_witness :
    save_vector_store stTwo =
      Except.ok ⟨some [[1], [2]], some ["d0", "d1"], some [mdEmpty, mdEmpty]⟩ ∧
    (load_vector_store ⟨some [[1], [2]], some ["d0", "d1"], some [mdEmpty, mdEmpty]⟩
        stEmptyState).2 = true ∧
    (load_vector_store ⟨some [[1], [2]], some ["d0", "d1"], some [mdEmpty, mdEmpty]⟩
        stEmptyState).1.documents = stTwo.documents ∧
    (load_vector_store ⟨some [[1], [2]], some ["d0", "d1"], some [mdEmpty, mdEmpty]⟩
        stEmptyState).1.document_metadata = stTwo.document_metadata :=
  C7_round_trip stTwo stEmptyState [[1], [2]] rfl

/-- Claim C3 (confirmed): with the index built and the query embeddable,
`search(q, top_k, f)` returns (with no error) exactly the surviving
candidates of the `2 * top_k` over-fetch window truncated to `top_k`, so
the result length is at most `top_k`, and when fewer than `top_k`
candidates pass the filter the result is exactly the ones that passed —
no error, no padding. -/
theorem C3_search_bounded (env : Env) (st : RAGState) (q : String) (k : Nat)
    (f : Option Filters) (vecs : List Vec) (qe : Vec)
    (hidx : st.index = some vecs) (hemb : env.embed q = some qe) (hk : 0 < k) :
    search env st q k f =
      Except.ok ((keptResults st f (faissTopK vecs (env.normalizeL2 qe) (k * 2))).take k) ∧
    ((keptResults st f (faissTopK vecs (env.normalizeL2 qe) (k * 2))).take k).length ≤ k ∧
    ((keptResults st f (faissTopK vecs (env.normalizeL2 qe) (k * 2))).length < k →
      (keptResults st f (faissTopK vecs (env.normalizeL2 qe) (k * 2))).take k
        = keptResults st f (faissTopK vecs (env.normalizeL2 qe) (k * 2))) := by
  refine ⟨search_eq env st q k f vecs qe hidx hemb, ?_, ?_⟩
  · rw [List.length_take]
    exact min_le_left _ _
  · intro hlt
    exact List.take_of_length_le (Nat.le_of_lt hlt)

/-- Witness for C3 on the one-document state with `top_k = 5`: only one
candidate exists, so the search returns exactly that one result. -/
theorem C3_witness :
    search envFailGen stOne "q" 5 none =
      Except.ok ((keptResults stOne none
        (faissTopK [[1]] (envFailGen.normalizeL2 [1]) (5 * 2))).take 5) ∧
    ((keptResults stOne none
        (faissTopK [[1]] (envFailGen.normalizeL2 [1]) (5 * 2))).take 5).length ≤ 5 ∧
    ((keptResults stOne none
        (faissTopK [[1]] (envFailGen.normalizeL2 [1]) (5 * 2))).length < 5 →
      (keptResults stOne none
        (faissTopK [[1]] (envFailGen.normalizeL2 [1]) (5 * 2))).take 5
        = keptResults stOne none
            (faissTopK [[1]] (envFailGen.normalizeL2 [1]) (5 * 2))) :=
  C3_search_bounded envFailGen stOne "q" 5 none [[1]] [1] rfl rfl (by decide)

/-- Claim C4 (confirmed): every result list returned by `search` is
ordered non-increasingly by score: `result[i+1].score ≤ result[i].score`
for every valid index. -/
theorem C4_search_sorted (env : Env) (st : RAGState) (q : String) (k : Nat)
    (f : Option Filters) (rs : List SearchResult)
    (h : search env st q k f = Except.ok rs) (i : Nat) (hi : i + 1 < rs.length) :
    (rs.get ⟨i + 1, hi⟩).score ≤ (rs.get ⟨i, Nat.lt_of_succ_lt hi⟩).score := by
  obtain ⟨vecs, qe, hidx, hemb, hrs⟩ := search_ok_inv env st q k f rs h
  subst hrs
  have hp : ((keptResults st f (faissTopK vecs (env.normalizeL2 qe) (k * 2))).take
      k).Pairwise (fun r1 r2 => r2.score ≤ r1.score) :=
    (keptResults_pairwise st f vecs (env.normalizeL2 qe) (k * 2)).sublist
      (List.take_sublist _ _)
  exact List.pairwise_iff_get.mp hp ⟨i, Nat.lt_of_succ_lt hi⟩ ⟨i + 1, hi⟩
    (Nat.lt_succ_self i)

/-- Witness for C4 on the two-document state: the score-2 result precedes
the score-1 result. -/
theorem C4_witness :
    (([resD1, resD0] : List SearchResult).get ⟨1, by decide⟩).score ≤
      (([resD1, resD0] : List SearchResult).get ⟨0, by decide⟩).score :=
  C4_search_sorted envFailGen stTwo "q" 2 none [resD1, resD0] (by rfl) 0 (by decide)

/-- Claim C1 (corrected), counterexample: with a built one-document index
and a generation model that always raises, `get_chat_response` returns a
pair whose answer embeds the error detail but whose sources list is the
retrieved search results — NOT the empty list the claim requires. -/
theorem C1_counterexample :
    envFailGen.generate
        (get_prompt_template "general" "q" (build_context [resDoc1]) none)
      = Except.error "boom" ∧
    get_chat_response envFailGen stOne "q" "general" none none 5 =
      Except.ok ("I encountered an error while processing your request: boom",
        [resDoc1]) ∧
    ([resDoc1] : List SearchResult) ≠ [] :=
  ⟨rfl, rfl, by decide⟩

/-- Claim C1 (corrected), amended: whenever the retrieval step succeeds,
`get_chat_response` returns a two-element pair, and whenever the
generation model raises, the returned answer is an apologetic text
embedding the error detail while the returned sources are the retrieved
search results (kept, not cleared to `[]`). -/
theorem C1_chat_error_path (env : Env) (st : RAGState) (query mode : String)
    (filters : Option Filters) (history : Option (List ConvTurn)) (top_k : Nat)
    (rs : List SearchResult) (e : String)
    (hs : search env st query top_k filters = Except.ok rs)
    (hg : env.generate (get_prompt_template mode query (build_context rs) history)
        = Except.error e) :
    get_chat_response env st query mode filters history top_k =
      Except.ok ("I encountered an error while processing your request: " ++ e, rs) := by
  unfold get_chat_response
  rw [hs]
  show Except.ok (generate_response env query rs mode history, rs) = _
  simp only [generate_response]
  rw [hg]

/-- Witness for the amended C1 at the concrete failing generator. -/
theorem C1_witness :
    get_chat_response envFailGen stOne "q" "general" none none 5 =
      Except.ok ("I encountered an error while processing your request: " ++ "boom",
        [resDoc1]) :=
  C1_chat_error_path envFailGen stOne "q" "general" none none 5 [resDoc1] "boom"
    (by rfl) (by rfl)

/-- Claim C6 (corrected), counterexample: a build over one embeddable and
one non-embeddable chunk does not skip the failing chunk and continue — it
aborts with the embedding error, leaving no index built (though the
content and metadata fields were already overwritten). -/
theorem C6_counterexample :
    envBadEmbed.embed docBad.content = none ∧
    build_vector_store envBadEmbed stEmptyState diskEmpty [docGood, docBad] =
      (⟨none, ["good", "bad"], [mdEmpty, mdEmpty]⟩, diskEmpty,
        some (PyError.embedError "embedding model raised")) :=
  ⟨rfl, rfl⟩

/-- Claim C6 (corrected), amended: the build fails on zero chunks, but
with a generic index error while reading the embedding-matrix dimension
(no dedicated `EmptyCorpusError` exists), and when the content of any chunk
fails to embed the whole build aborts with the embedding error — the
failing chunk is not skipped and the remaining chunks are not indexed
(the held index and the disk are left untouched). -/
theorem C6_build_aborts :
    (∀ env st d, (build_vector_store env st d []).2.2
        = some (PyError.indexError "tuple index out of range")) ∧
    (∀ env st d documents doc, doc ∈ documents → env.embed doc.content = none →
      (build_vector_store env st d documents).2.2
          = some (PyError.embedError "embedding model raised") ∧
      (build_vector_store env st d documents).1.index = st.index ∧
      (build_vector_store env st d documents).2.1 = d) := by
  constructor
  · intro env st d
    rfl
  · intro env st d documents doc hmem hfail
    have hb : batchEmbed env (documents.map Document.content) = none :=
      batchEmbed_eq_none env (documents.map Document.content) doc.content
        (List.mem_map_of_mem Document.content hmem) hfail
    simp only [build_vector_store]
    rw [hb]
    exact ⟨rfl, rfl, rfl⟩

/-- Witness for the amended C6: the empty build and the aborted build at
the concrete fixtures. -/
theorem C6_witness :
    (build_vector_store envBadEmbed stEmptyState diskEmpty []).2.2
        = some (PyError.indexError "tuple index out of range") ∧
    (build_vector_store envBadEmbed stEmptyState diskEmpty [docGood, docBad]).2.2
        = some (PyError.embedError "embedding model raised") :=
  ⟨C6_build_aborts.1 envBadEmbed stEmptyState diskEmpty,
    (C6_build_aborts.2 envBadEmbed stEmptyState diskEmpty [docGood, docBad] docBad
      (by simp) rfl).1⟩

/-- Claim C8 (corrected), counterexample: with `year_range` supplied as a
two-element `[lo, hi]` list — the shape the Search API specifies — the
`isinstance(value, tuple)` guard skips the year check entirely, and
`search` returns a record whose `act_year` parses to 1800, outside the
requested [1900, 2000] range. -/
theorem C8_counterexample :
    search envFailGen stOldAct "q" 5
        (some [("year_range", FilterValue.list [1900, 2000])])
      = Except.ok [resOldAct] ∧
    pyParseYear resOldAct.metadata = some 1800 ∧
    ¬ ((1900 : Int) ≤ 1800 ∧ (1800 : Int) ≤ 2000) :=
  ⟨rfl, rfl, by decide⟩

/-- Claim C8 (corrected), amended: only when `year_range` is supplied as a
Python tuple `(lo, hi)` does the filter bind: then every returned result
whose `act_year` parses to an integer `y` satisfies `lo ≤ y ≤ hi`
(records with unparseable `act_year` still pass, by C2); supplying
`year_range` as a `[lo, hi]` list leaves the year filter unapplied. -/
theorem C8_year_range_tuple_enforced (env : Env) (st : RAGState) (q : String)
    (k : Nat) (f : Filters) (lo hi : Int) (rs : List SearchResult)
    (hf : ("year_range", FilterValue.tuple lo hi) ∈ f)
    (h : search env st q k (some f) = Except.ok rs)
    (r : SearchResult) (hr : r ∈ rs) (y : Int)
    (hy : pyParseYear r.metadata = some y) :
    lo ≤ y ∧ y ≤ hi := by
  obtain ⟨vecs, qe, hidx, hemb, hrs⟩ := search_ok_inv env st q k (some f) rs h
  subst hrs
  obtain ⟨c, hc, hgood, hre⟩ :=
    mem_keptResults st (some f) _ r (List.mem_of_mem_take hr)
  unfold goodCand at hgood
  rw [Bool.and_eq_true] at hgood
  have hkeep : keepByFilters (candMetadata st c.2) (some f) = true := hgood.2
  have hfa : apply_filters (candMetadata st c.2) f = true := by
    unfold keepByFilters filtersActive at hkeep
    cases f with
    | nil => cases hf
    | cons a as => simpa using hkeep
  unfold apply_filters at hfa
  have hentry : filterEntryOk (candMetadata st c.2) "year_range"
      (FilterValue.tuple lo hi) = true := by
    have h2 := List.all_eq_true.mp hfa ("year_range", FilterValue.tuple lo hi) hf
    simpa using h2
  have hmd : r.metadata = candMetadata st c.2 := by rw [hre]; rfl
  rw [hmd] at hy
  have hentry2 :
      (if (candMetadata st c.2).act_year.getD "" ≠ ""
          ∧ isDigitString ((candMetadata st c.2).act_year.getD "") then
        decide (lo ≤ (strToNat ((candMetadata st c.2).act_year.getD "") : Int)) &&
          decide ((strToNat ((candMetadata st c.2).act_year.getD "") : Int) ≤ hi)
      else true) = true := hentry
  have hy2 :
      (if (candMetadata st c.2).act_year.getD "" ≠ ""
          ∧ isDigitString ((candMetadata st c.2).act_year.getD "") then
        some ((strToNat ((candMetadata st c.2).act_year.getD "") : Int))
      else none) = some y := hy
  by_cases hcond : ((candMetadata st c.2).act_year.getD "" ≠ ""
      ∧ isDigitString ((candMetadata st c.2).act_year.getD ""))
  · rw [if_pos hcond] at hentry2 hy2
    injection hy2 with hy3
    rw [Bool.and_eq_true] at hentry2
    rcases hentry2 with ⟨hd1, hd2⟩
    rw [← hy3]
    exact ⟨of_decide_eq_true hd1, of_decide_eq_true hd2⟩
  · rw [if_neg hcond] at hy2
    cases hy2

/-- Witness for the amended C8: the 1872 record passes a (1860, 1900)
tuple filter and its year lies in the range. -/
theorem C8_witness : (1860 : Int) ≤ 1872 ∧ (1872 : Int) ≤ 1900 :=
  C8_year_range_tuple_enforced envFailGen stContract "q" 5
    [("year_range", FilterValue.tuple 1860 1900)] 1860 1900 [resContract]
    (by simp) (by rfl) resContract (by simp) 1872 rfl

/-- Claim C9 (confirmed): after every successful build, and after every
load that returns `True` of an artifact persisted from a consistent state,
the vector index, the content sequence and the metadata sequence have
identical length; and every `SearchResult` produced by `search` at a
candidate index `idx` pairs `documents[idx]` with
`document_metadata[idx]`. -/
theorem C9_parallel_invariant :
    (∀ env st d documents st2 d2,
      build_vector_store env st d documents = (st2, d2, none) →
        stateConsistent st2) ∧
    (∀ st dsk st0 st2, stateConsistent st →
      save_vector_store st = Except.ok dsk →
      load_vector_store dsk st0 = (st2, true) → stateConsistent st2) ∧
    (∀ env st q k f rs r, search env st q k f = Except.ok rs → r ∈ rs →
      ∃ i : Nat, r.content = st.documents.getD i "" ∧
        r.metadata = st.document_metadata.getD i default) := by
  refine ⟨?_, ?_, ?_⟩
  · intro env st d documents st2 d2 hb
    cases hbe : batchEmbed env (documents.map Document.content) with
    | none =>
      simp only [build_vector_store, hbe] at hb
      injection hb with h1 h23
      injection h23 with h2 h3
      cases h3
    | some es =>
      cases hh : es.head? with
      | none =>
        simp only [build_vector_store, hbe, hh] at hb
        injection hb with h1 h23
        injection h23 with h2 h3
        cases h3
      | some e0 =>
        simp only [build_vector_store, hbe, hh, save_vector_store] at hb
        injection hb with h1 h23
        rw [← h1]
        intro vecs hv
        injection hv with hv
        rw [← hv]
        have hlen := batchEmbed_length env (documents.map Document.content) es hbe
        constructor
        · simp [hlen]
        · simp
  · intro st dsk st0 st2 hcons hsave hload
    unfold save_vector_store at hsave
    cases hidx : st.index with
    | none => rw [hidx] at hsave; cases hsave
    | some vecs =>
      rw [hidx] at hsave
      injection hsave with hd
      rw [← hd] at hload
      unfold load_vector_store at hload
      injection hload with h1 h2
      rw [← h1]
      intro v hv
      injection hv with hv
      rw [← hv]
      exact hcons vecs hidx
  · intro env st q k f rs r h hr
    obtain ⟨vecs, qe, hidx, hemb, hrs⟩ := search_ok_inv env st q k f rs h
    subst hrs
    obtain ⟨c, hc, hg, hre⟩ :=
      mem_keptResults st f _ r (List.mem_of_mem_take hr)
    exact ⟨c.2.toNat, by rw [hre]; rfl, by rw [hre]; rfl⟩

/-- Witness for C9: the successful one-chunk build produces equally long
index, content and metadata sequences. -/
theorem C9_witness :
    ([[(1 : Int)]] : List Vec).length = (["good"] : List String).length ∧
    (["good"] : List String).length = ([mdEmpty] : List Metadata).length :=
  C9_parallel_invariant.1 envBadEmbed stEmptyState diskEmpty [docGood]
    ⟨some [[1]], ["good"], [mdEmpty]⟩ ⟨some [[1]], some ["good"], some [mdEmpty]⟩
    rfl [[1]] rfl
